import Mathlib

/-!
Shallow embedding of `src/email_notifier.py`: the RSVP email notification
module (templating of two HTML emails plus one SMTP send wrapped in a
catch-all handler).

Modelling conventions:
* A Python dict field is an `Option String`: `none` is an absent key (or a
  `None` value), `some s` is a present value rendered by `str()` as `s`.
* `d[key]` is `getItem`, returning `Except.error` (an uncaught `KeyError`)
  when the key is absent; `d.get(key, dflt)` is `dictGetD`, which never
  fails; the truthiness test `d.get(key)` is `truthy`.
* A Python f-string is a sequence of `Piece`s: literal chunks (`Piece.lit`)
  alternating with interpolated values (`Piece.val`); `render` concatenates
  them into the flat string the code builds.
* `datetime.now().strftime(...)` is modelled as an explicit `now : String`
  argument threaded to the code that reads the clock.
* The SMTP transport is a function `ok : SmtpStep → Bool` saying which steps
  of the session succeed; the session stops at the first failing step and the
  `try/except` in `_send_email` converts any failure into `false`.
-/

/-- A fragment of a rendered f-string: a literal template chunk or an
interpolated value. -/
inductive Piece where
  | lit (s : String)
  | val (s : String)
deriving DecidableEq

/-- The string a piece contributes to the rendered output. -/
def Piece.str : Piece → String
  | .lit s => s
  | .val s => s

/-- Flatten the pieces of an f-string into the string Python builds. -/
def render (ps : List Piece) : String :=
  ps.foldr (fun p acc => p.str ++ acc) ""

/-- Substring containment: `pat` occurs contiguously inside `s`. -/
def StrContains (s pat : String) : Prop :=
  ∃ pre post, s = pre ++ (pat ++ post)

/-- The `party_data` dictionary (see the reference usage, lines 338-346). -/
structure PartyData where
  child_name : Option String
  age : Option String
  party_date : Option String
  party_time_start : Option String
  party_time_end : Option String
  venue_name : Option String
  venue_address : Option String
deriving DecidableEq

/-- The `rsvp_data` dictionary (see the reference usage, lines 349-359). -/
structure RsvpData where
  child_name : Option String
  parent_name : Option String
  email : Option String
  phone : Option String
  attendance_status : Option String
  number_of_kids : Option String
  number_of_adults : Option String
  food_allergies : Option String
  birthday_message : Option String
deriving DecidableEq

/-- Python `d[key]`: an absent key raises `KeyError`, modelled as
`Except.error`. -/
def getItem (v : Option String) (key : String) : Except String String :=
  match v with
  | some s => Except.ok s
  | none => Except.error ("KeyError: " ++ key)

/-- Python `d.get(key, dflt)`: the value when present, the default
otherwise; never raises. -/
def dictGetD (v : Option String) (dflt : String) : String :=
  v.getD dflt

/-- Python truthiness of `d.get(key)`: present and non-empty. -/
def truthy (v : Option String) : Bool :=
  match v with
  | some s => s != ""
  | none => false

/-- The `EmailNotifier` configuration set by `__init__` (lines 15-28). -/
structure EmailNotifier where
  smtp_server : String
  smtp_port : Nat
  email : String
  password : String
deriving DecidableEq

/-- One step of the SMTP session in `_send_email` (lines 291-294):
`smtplib.SMTP(server, port)`, `server.starttls()`, `server.login(...)`,
`server.send_message(...)`. -/
inductive SmtpStep where
  | connect
  | starttls
  | login
  | send_message
deriving DecidableEq

/-- The `multipart/alternative` message with one HTML part built in
`_send_email` (lines 281-288). -/
structure MimeMessage where
  from_addr : String
  to_addr : String
  subject : String
  html_body : String
deriving DecidableEq

/-- Lines 281-288: build the MIME message. -/
def buildMessage (n : EmailNotifier) (to_email subject html_body : String) : MimeMessage :=
  { from_addr := n.email, to_addr := to_email, subject := subject, html_body := html_body }

/-- The `with smtplib.SMTP(...)` block (lines 291-294): the steps run in
order, stopping at the first failure; the result is whether every step
succeeded, paired with the steps attempted. -/
def runSmtpSession (ok : SmtpStep → Bool) : Bool × List SmtpStep :=
  if ok .connect then
    if ok .starttls then
      if ok .login then
        if ok .send_message then (true, [.connect, .starttls, .login, .send_message])
        else (false, [.connect, .starttls, .login, .send_message])
      else (false, [.connect, .starttls, .login])
    else (false, [.connect, .starttls])
  else (false, [.connect])

/-- `EmailNotifier._send_email` (lines 275-301): builds the message, runs
the SMTP session, and returns `True` on success; the `try/except Exception`
catches every transport failure and returns `False`, so the function is
total into `Bool` — no exception reaches the caller. -/
def send_email (n : EmailNotifier) (ok : SmtpStep → Bool) (to_email subject html_body : String) : Bool :=
  let _message := buildMessage n to_email subject html_body
  (runSmtpSession ok).1

/-- The attendance-status presentation of line 138 of the host template. -/
def statusLabel (status : String) : String :=
  if status = "yes" then "✅ Coming!"
  else if status = "no" then "❌ Cannot Attend"
  else "❓ Maybe"
/-- A literal chunk of the source template. -/
def hostLit0 : String :=
  "\n        <html>\n            <head>\n                <style>\n                    body \x7b\n                        font-family: \x27Arial\x27, sans-serif;\n                        background-color: #f8f9fa;\n                        padding: 20px;\n                    \x7d\n                    .container \x7b\n                        max-width: 600px;\n                        margin: 0 auto;\n                        background: white;\n                        border-radius: 15px;\n                        padding: 30px;\n                        box-shadow: 0 5px 20px rgba(0,0,0,0.1);\n                    \x7d\n                    .header \x7b\n                        text-align: center;\n                        margin-bottom: 30px;\n                    \x7d\n                    .header h1 \x7b\n                        color: #FF6B9D;\n                        font-size: 28px;\n                        margin-bottom: 10px;\n                    \x7d\n                    .info-box \x7b\n                        background: #FFE5F0;\n                        padding: 20px;\n                        border-radius: 10px;\n                        margin-bottom: 20px;\n                    \x7d\n                    .info-row \x7b\n                        margin-bottom: 10px;\n                    \x7d\n                    .label \x7b\n                        font-weight: bold;\n                        color: #666;\n                    \x7d\n                    .value \x7b\n                        color: #333;\n                    \x7d\n                    .status \x7b\n                        display: inline-block;\n                        padding: 8px 15px;\n                        border-radius: 20px;\n                        color: white;\n                        font-weight: bold;\n                    \x7d\n                    .status-yes \x7b\n                        background: linear-gradient(135deg, #6BCB77, #4D96FF);\n                    \x7d\n                    .status-no \x7b\n                        background: linear-gradient(135deg, #FF6B9D, #FF8FAB);\n                    \x7d\n                    .message-box \x7b\n                        background: #E5F3FF;\n                        padding: 15px;\n                        border-radius: 10px;\n                        margin-top: 20px;\n                        font-style: italic;\n                    \x7d\n                    .footer \x7b\n                        text-align: center;\n                        margin-top: 30px;\n                        color: #999;\n                        font-size: 12px;\n                    \x7d\n                </style>\n            </head>\n            <body>\n                <div class=\"container\">\n                    <div class=\"header\">\n                        <h1>🎉 New RSVP Received!</h1>\n                        <p>Someone just responded to "

/-- A literal chunk of the source template. -/
def hostLit2 : String :=
  "\x27s party invitation</p>\n                    </div>\n                    \n                    <div class=\"info-box\">\n                        <div class=\"info-row\">\n                            <span class=\"label\">👶 Child\x27s Name:</span>\n                            <span class=\"value\">"

/-- A literal chunk of the source template. -/
def hostLit4 : String :=
  "</span>\n                        </div>\n                        <div class=\"info-row\">\n                            <span class=\"label\">👨‍👩‍👧 Parent\x27s Name:</span>\n                            <span class=\"value\">"

/-- A literal chunk of the source template. -/
def hostLit6 : String :=
  "</span>\n                        </div>\n                        <div class=\"info-row\">\n                            <span class=\"label\">📧 Email:</span>\n                            <span class=\"value\">"

/-- A literal chunk of the source template. -/
def hostLit8 : String :=
  "</span>\n                        </div>\n                        <div class=\"info-row\">\n                            <span class=\"label\">📱 Phone:</span>\n                            <span class=\"value\">"

/-- A literal chunk of the source template. -/
def hostLit10 : String :=
  "</span>\n                        </div>\n                        <div class=\"info-row\">\n                            <span class=\"label\">Status:</span>\n                            <span class=\"status status-"

/-- A literal chunk of the source template. -/
def hostLit12 : String :=
  "\">\n                                "

/-- A literal chunk of the source template. -/
def hostLit14 : String :=
  "\n                            </span>\n                        </div>\n                        <div class=\"info-row\">\n                            <span class=\"label\">👶 Number of Kids:</span>\n                            <span class=\"value\">"

/-- A literal chunk of the source template. -/
def hostLit16 : String :=
  "</span>\n                        </div>\n                        <div class=\"info-row\">\n                            <span class=\"label\">👨‍👩‍👧 Number of Adults:</span>\n                            <span class=\"value\">"

/-- A literal chunk of the source template. -/
def hostLit18 : String :=
  "</span>\n                        </div>\n                        "

/-- A literal chunk of the source template. -/
def hostLit20 : String :=
  "\n                    </div>\n                    \n                    "

/-- A literal chunk of the source template. -/
def hostLit22 : String :=
  "\n                    \n                    <div class=\"footer\">\n                        <p>RSVP received on "

/-- A literal chunk of the source template. -/
def hostLit24 : String :=
  "</p>\n                        <p>View all RSVPs in your admin dashboard</p>\n                    </div>\n                </div>\n            </body>\n        </html>\n        "

/-- A literal chunk of the source template. -/
def allergyLit0 : String :=
  "\n                        <div class=\"info-row\">\n                            <span class=\"label\">🚫 Food Allergies:</span>\n                            <span class=\"value\">"

/-- A literal chunk of the source template. -/
def allergyLit2 : String :=
  "</span>\n                        </div>\n                        "

/-- A literal chunk of the source template. -/
def messageLit0 : String :=
  "\n                    <div class=\"message-box\">\n                        <strong>💌 Birthday Message:</strong><br>\n                        \""

/-- A literal chunk of the source template. -/
def messageLit2 : String :=
  "\"\n                    </div>\n                    "

/-- A literal chunk of the source template. -/
def detailLit0 : String :=
  "\n                    <div class=\"party-details\">\n                        <h3 style=\"color: #FF6B9D; margin-bottom: 15px;\">Party Details:</h3>\n                        <div class=\"detail-row\">\n                            <span class=\"emoji\">📅</span>\n                            <strong>Date:</strong> "

/-- A literal chunk of the source template. -/
def detailLit2 : String :=
  "\n                        </div>\n                        <div class=\"detail-row\">\n                            <span class=\"emoji\">🕐</span>\n                            <strong>Time:</strong> "

/-- A literal chunk of the source template. -/
def detailLit4 : String :=
  " - "

/-- A literal chunk of the source template. -/
def detailLit6 : String :=
  "\n                        </div>\n                        <div class=\"detail-row\">\n                            <span class=\"emoji\">📍</span>\n                            <strong>Location:</strong> "

/-- A literal chunk of the source template. -/
def detailLit8 : String :=
  "<br>\n                            <span style=\"margin-left: 30px;\">"

/-- A literal chunk of the source template. -/
def detailLit10 : String :=
  "</span>\n                        </div>\n                    </div>\n                    "

/-- A literal chunk of the source template. -/
def guestLit0 : String :=
  "\n        <html>\n            <head>\n                <style>\n                    body \x7b\n                        font-family: \x27Arial\x27, sans-serif;\n                        background-color: #f8f9fa;\n                        padding: 20px;\n                    \x7d\n                    .container \x7b\n                        max-width: 600px;\n                        margin: 0 auto;\n                        background: white;\n                        border-radius: 15px;\n                        padding: 30px;\n                        box-shadow: 0 5px 20px rgba(0,0,0,0.1);\n                    \x7d\n                    .header \x7b\n                        text-align: center;\n                        margin-bottom: 30px;\n                    \x7d\n                    .header h1 \x7b\n                        color: #FF6B9D;\n                        font-size: 28px;\n                    \x7d\n                    .party-details \x7b\n                        background: linear-gradient(135deg, #FFE5F0, #E5F3FF);\n                        padding: 25px;\n                        border-radius: 10px;\n                        margin-bottom: 20px;\n                    \x7d\n                    .detail-row \x7b\n                        margin-bottom: 12px;\n                        font-size: 16px;\n                    \x7d\n                    .emoji \x7b\n                        margin-right: 8px;\n                    \x7d\n                    .footer \x7b\n                        text-align: center;\n                        margin-top: 30px;\n                        padding-top: 20px;\n                        border-top: 2px solid #FFE5F0;\n                        color: #666;\n                    \x7d\n                </style>\n            </head>\n            <body>\n                <div class=\"container\">\n                    <div class=\"header\">\n                        <h1>🎉 Thank You for Your RSVP! 🎉</h1>\n                        <p>Hi "

/-- A literal chunk of the source template. -/
def guestLit2 : String :=
  "!</p>\n                    </div>\n                    \n                    <p>We\x27re "

/-- A literal chunk of the source template. -/
def guestLit4 : String :=
  " \n                    "

/-- A literal chunk of the source template. -/
def guestLit6 : String :=
  " \n                    for "

/-- A literal chunk of the source template. -/
def guestLit8 : String :=
  "\x27s "

/-- A literal chunk of the source template. -/
def guestLit10 : String :=
  "th birthday party!</p>\n                    \n                    "

/-- A literal chunk of the source template. -/
def guestLit12 : String :=
  "\n                    \n                    <div class=\"footer\">\n                        <p>If you need to update your RSVP, please contact us.</p>\n                        <p style=\"margin-top: 15px;\">See you at the party! 🎈</p>\n                    </div>\n                </div>\n            </body>\n        </html>\n        "

/-- The conditional allergy row of the host template (lines 149-154):
rendered only when `rsvp_data.get('food_allergies')` is truthy. -/
def allergyPieces (v : String) : List Piece :=
  [Piece.lit allergyLit0, Piece.val v, Piece.lit allergyLit2]

/-- The conditional birthday-message block of the host template
(lines 157-162): rendered only when `rsvp_data.get('birthday_message')` is
truthy. -/
def messagePieces (v : String) : List Piece :=
  [Piece.lit messageLit0, Piece.val v, Piece.lit messageLit2]

/-- The conditional party-details block of the guest template
(lines 244-261): evaluated only when `attendance_status == 'yes'`, so its
`party_data[...]` accesses can raise only in that case. -/
def detailBlockPieces (p : PartyData) : Except String (List Piece) := do
  let pd ← getItem p.party_date "party_date"
  let ts ← getItem p.party_time_start "party_time_start"
  let te ← getItem p.party_time_end "party_time_end"
  let vn ← getItem p.venue_name "venue_name"
  let va ← getItem p.venue_address "venue_address"
  pure [Piece.lit detailLit0, Piece.val pd, Piece.lit detailLit2, Piece.val ts,
    Piece.lit detailLit4, Piece.val te, Piece.lit detailLit6, Piece.val vn,
    Piece.lit detailLit8, Piece.val va, Piece.lit detailLit10]

/-- The subject line of `send_rsvp_notification` (line 38). -/
def rsvpSubject (p : PartyData) : Except String String := do
  let pcn ← getItem p.child_name "child_name"
  pure ("🎉 New RSVP for " ++ pcn ++ "\x27s Birthday Party!")

/-- The `html_body` f-string of `send_rsvp_notification` (lines 41-171), as
its sequence of pieces, with the dictionary accesses evaluated in source
order. -/
def hostPieces (r : RsvpData) (p : PartyData) (now : String) : Except String (List Piece) := do
  let pcn ← getItem p.child_name "child_name"
  let cn ← getItem r.child_name "child_name"
  let pn ← getItem r.parent_name "parent_name"
  let em ← getItem r.email "email"
  let ph ← getItem r.phone "phone"
  let st ← getItem r.attendance_status "attendance_status"
  pure ([Piece.lit hostLit0, Piece.val pcn, Piece.lit hostLit2, Piece.val cn,
      Piece.lit hostLit4, Piece.val pn, Piece.lit hostLit6, Piece.val em,
      Piece.lit hostLit8, Piece.val ph, Piece.lit hostLit10, Piece.val st,
      Piece.lit hostLit12, Piece.val (statusLabel st), Piece.lit hostLit14,
      Piece.val (dictGetD r.number_of_kids "1"), Piece.lit hostLit16,
      Piece.val (dictGetD r.number_of_adults "1"), Piece.lit hostLit18]
    ++ (if truthy r.food_allergies then allergyPieces (dictGetD r.food_allergies "None")
        else [Piece.lit ""])
    ++ [Piece.lit hostLit20]
    ++ (if truthy r.birthday_message then messagePieces (dictGetD r.birthday_message "")
        else [Piece.lit ""])
    ++ [Piece.lit hostLit22, Piece.val now, Piece.lit hostLit24])

/-- The flat `html_body` of `send_rsvp_notification`. -/
def hostHtmlBody (r : RsvpData) (p : PartyData) (now : String) : Except String String := do
  let ps ← hostPieces r p now
  pure (render ps)

/-- `EmailNotifier.send_rsvp_notification` (lines 30-174): renders subject
and body, sends to the configured account itself, and returns `None`
(`Unit`) — the boolean from `_send_email` is discarded.  An uncaught
`KeyError` from a missing required key is `Except.error`. -/
def send_rsvp_notification (n : EmailNotifier) (ok : SmtpStep → Bool)
    (r : RsvpData) (p : PartyData) (now : String) : Except String Unit := do
  let subject ← rsvpSubject p
  let html_body ← hostHtmlBody r p now
  let _sent := send_email n ok n.email subject html_body
  pure ()

/-- The subject line of `send_confirmation_to_guest` (line 184). -/
def confirmationSubject (p : PartyData) : Except String String := do
  let pcn ← getItem p.child_name "child_name"
  pure ("🎉 RSVP Confirmation - " ++ pcn ++ "\x27s Birthday Party")

/-- The `html_body` f-string of `send_confirmation_to_guest`
(lines 186-270), as its sequence of pieces, with the dictionary accesses
evaluated in source order. -/
def guestPieces (r : RsvpData) (p : PartyData) : Except String (List Piece) := do
  let pn ← getItem r.parent_name "parent_name"
  let st ← getItem r.attendance_status "attendance_status"
  let pcn ← getItem p.child_name "child_name"
  let age ← getItem p.age "age"
  let details ← if st = "yes" then detailBlockPieces p else pure [Piece.lit ""]
  pure ([Piece.lit guestLit0, Piece.val pn, Piece.lit guestLit2,
      Piece.val (if st = "yes" then "thrilled" else "sorry"), Piece.lit guestLit4,
      Piece.val (if st = "yes" then "that you can join us" else "you cannot make it"),
      Piece.lit guestLit6, Piece.val pcn, Piece.lit guestLit8, Piece.val age,
      Piece.lit guestLit10]
    ++ details
    ++ [Piece.lit guestLit12])

/-- The flat `html_body` of `send_confirmation_to_guest`. -/
def guestHtmlBody (r : RsvpData) (p : PartyData) : Except String String := do
  let ps ← guestPieces r p
  pure (render ps)

/-- `EmailNotifier.send_confirmation_to_guest` (lines 176-273): renders
subject and body, sends to `rsvp_data['email']`, and returns `None`
(`Unit`) — the boolean from `_send_email` is discarded. -/
def send_confirmation_to_guest (n : EmailNotifier) (ok : SmtpStep → Bool)
    (r : RsvpData) (p : PartyData) : Except String Unit := do
  let subject ← confirmationSubject p
  let html_body ← guestHtmlBody r p
  let to_email ← getItem r.email "email"
  let _sent := send_email n ok to_email subject html_body
  pure ()

/-- `send_confirmation_to_guest` run at ambient wall-clock time `now`: the
guest path never reads the clock, so `now` is dropped. -/
def send_confirmation_at (now : String) (n : EmailNotifier) (ok : SmtpStep → Bool)
    (r : RsvpData) (p : PartyData) : Except String Unit :=
  let _ := now
  send_confirmation_to_guest n ok r p

/-- The guest subject and body rendered at ambient wall-clock time `now`
(unused: the guest template reads no clock). -/
def guest_render_at (now : String) (r : RsvpData) (p : PartyData) :
    Except String (String × String) := do
  let _ := now
  let subject ← confirmationSubject p
  let html_body ← guestHtmlBody r p
  pure (subject, html_body)

/-- One call to a public or internal operation of a notifier instance. -/
inductive NotifierCall where
  | host (ok : SmtpStep → Bool) (r : RsvpData) (p : PartyData) (now : String)
  | guest (ok : SmtpStep → Bool) (r : RsvpData) (p : PartyData)
  | raw (ok : SmtpStep → Bool) (to_email subject html_body : String)

/-- The result of one notifier call. -/
inductive CallResult where
  | unit_result (e : Except String Unit)
  | bool_result (b : Bool)

/-- Run one call, passing the instance state explicitly: no method of the
class assigns to `self`, so the state after the call is the state before. -/
def runCall (n : EmailNotifier) : NotifierCall → EmailNotifier × CallResult
  | .host ok r p now => (n, .unit_result (send_rsvp_notification n ok r p now))
  | .guest ok r p => (n, .unit_result (send_confirmation_to_guest n ok r p))
  | .raw ok to_email subject html_body => (n, .bool_result (send_email n ok to_email subject html_body))

/-- The instance state after a sequence of calls. -/
def runCalls (n : EmailNotifier) (cs : List NotifierCall) : EmailNotifier :=
  cs.foldl (fun m c => (runCall m c).1) n

/-- The example `party_data` of the reference usage (lines 338-346). -/
def exampleParty : PartyData :=
  { child_name := some "Emma", age := some "7",
    party_date := some "December 25, 2026",
    party_time_start := some "3:00 PM", party_time_end := some "6:00 PM",
    venue_name := some "Happy Kids Party Place",
    venue_address := some "123 Rainbow Street, Funtown, State 12345" }

/-- The example `rsvp_data` of the reference usage (lines 349-359). -/
def exampleRsvp : RsvpData :=
  { child_name := some "Sarah", parent_name := some "Jennifer Smith",
    email := some "jennifer@email.com", phone := some "(555) 123-4567",
    attendance_status := some "yes", number_of_kids := some "1",
    number_of_adults := some "2", food_allergies := some "None",
    birthday_message := some "Happy Birthday Emma! Can\x27t wait to celebrate with you!" }

/-- The example notifier of the reference usage (lines 330-335). -/
def exampleNotifier : EmailNotifier :=
  { smtp_server := "smtp.gmail.com", smtp_port := 587,
    email := "your_email@gmail.com", password := "your_app_password" }

/-- A transport on which every SMTP step succeeds. -/
def okTransport : SmtpStep → Bool := fun _ => true

/-- A transport on which every SMTP step fails (e.g. unreachable host). -/
def failTransport : SmtpStep → Bool := fun _ => false

/-- A fixed example timestamp for the host template footer. -/
def exampleNow : String := "December 01, 2026 at 09:00 AM"

/-- The host pieces for the example records, spelled out. -/
def exampleHostPieces (now : String) : List Piece :=
  [Piece.lit hostLit0, Piece.val "Emma", Piece.lit hostLit2, Piece.val "Sarah",
    Piece.lit hostLit4, Piece.val "Jennifer Smith", Piece.lit hostLit6,
    Piece.val "jennifer@email.com", Piece.lit hostLit8, Piece.val "(555) 123-4567",
    Piece.lit hostLit10, Piece.val "yes", Piece.lit hostLit12,
    Piece.val "✅ Coming!", Piece.lit hostLit14, Piece.val "1", Piece.lit hostLit16,
    Piece.val "2", Piece.lit hostLit18, Piece.lit allergyLit0, Piece.val "None",
    Piece.lit allergyLit2, Piece.lit hostLit20, Piece.lit messageLit0,
    Piece.val "Happy Birthday Emma! Can\x27t wait to celebrate with you!",
    Piece.lit messageLit2, Piece.lit hostLit22, Piece.val now, Piece.lit hostLit24]

/-- The guest pieces for the example records, spelled out. -/
def exampleGuestPieces : List Piece :=
  [Piece.lit guestLit0, Piece.val "Jennifer Smith", Piece.lit guestLit2,
    Piece.val "thrilled", Piece.lit guestLit4, Piece.val "that you can join us",
    Piece.lit guestLit6, Piece.val "Emma", Piece.lit guestLit8, Piece.val "7",
    Piece.lit guestLit10, Piece.lit detailLit0, Piece.val "December 25, 2026",
    Piece.lit detailLit2, Piece.val "3:00 PM", Piece.lit detailLit4,
    Piece.val "6:00 PM", Piece.lit detailLit6, Piece.val "Happy Kids Party Place",
    Piece.lit detailLit8, Piece.val "123 Rainbow Street, Funtown, State 12345",
    Piece.lit detailLit10, Piece.lit guestLit12]

/-- The example RSVP with `attendance_status` set to `"maybe"`. -/
def declineRsvp : RsvpData :=
  { exampleRsvp with attendance_status := some "maybe" }

/-- The guest pieces for `declineRsvp`, spelled out: no details block. -/
def declineGuestPieces : List Piece :=
  [Piece.lit guestLit0, Piece.val "Jennifer Smith", Piece.lit guestLit2,
    Piece.val "sorry", Piece.lit guestLit4, Piece.val "you cannot make it",
    Piece.lit guestLit6, Piece.val "Emma", Piece.lit guestLit8, Piece.val "7",
    Piece.lit guestLit10, Piece.lit "", Piece.lit guestLit12]

/-- An RSVP with every optional field absent and a missing-key-free
required part, declining the invitation. -/
def minimalRsvp : RsvpData :=
  { child_name := some "Tim", parent_name := some "Ana", email := some "ana@x.y",
    phone := some "1", attendance_status := some "maybe", number_of_kids := none,
    number_of_adults := none, food_allergies := none, birthday_message := none }

/-- A party record carrying only the fields every template path needs. -/
def minimalParty : PartyData :=
  { child_name := some "Emma", age := some "7", party_date := none,
    party_time_start := none, party_time_end := none, venue_name := none,
    venue_address := none }

/-- The example RSVP with the required `parent_name` key removed. -/
def noParentRsvp : RsvpData :=
  { exampleRsvp with parent_name := none }

/-! Helper lemmas about `render`, `StrContains` and `Except` binds. -/

/-- Bind on a successful `Except` computation. -/
theorem ok_bind {α β : Type} (a : α) (f : α → Except String β) :
    (Except.ok a : Except String α) >>= f = f a := rfl

/-- Bind on a failed `Except` computation. -/
theorem error_bind {α β : Type} (e : String) (f : α → Except String β) :
    (Except.error e : Except String α) >>= f = Except.error e := rfl

/-- `pure` on `Except` is `Except.ok`. -/
theorem pure_eq_ok {α : Type} (a : α) : (pure a : Except String α) = Except.ok a := rfl

/-- Rendering a cons. -/
theorem render_cons (p : Piece) (ps : List Piece) : render (p :: ps) = p.str ++ render ps := rfl

/-- Rendering is a homomorphism from piece concatenation to string
concatenation. -/
theorem render_append (xs ys : List Piece) : render (xs ++ ys) = render xs ++ render ys := by
  induction xs with
  | nil => simp [render]
  | cons p xs ih =>
    rw [List.cons_append, render_cons, render_cons, ih, String.append_assoc]

/-- The string of any piece of an f-string occurs in the rendered output. -/
theorem strContains_of_mem {ps : List Piece} {x : Piece} (h : x ∈ ps) :
    StrContains (render ps) x.str := by
  induction ps with
  | nil => simp at h
  | cons p ps ih =>
    rcases List.mem_cons.mp h with h1 | h2
    · exact ⟨"", render ps, by rw [render_cons, ← h1, String.empty_append]⟩
    · obtain ⟨pre, post, hp⟩ := ih h2
      exact ⟨p.str ++ pre, post, by rw [render_cons, hp, String.append_assoc]⟩

/-- Substring containment is transitive through an intermediate string. -/
theorem strContains_trans {s t u : String} (h1 : StrContains s t) (h2 : StrContains t u) :
    StrContains s u := by
  obtain ⟨p1, q1, hp1⟩ := h1
  obtain ⟨p2, q2, hp2⟩ := h2
  exact ⟨p1 ++ p2, q2 ++ q1, by rw [hp1, hp2]; simp [String.append_assoc]⟩

/-- A contiguous segment of an f-string renders as a substring of the whole. -/
theorem strContains_of_seg {seg ps : List Piece} (h : seg <:+: ps) :
    StrContains (render ps) (render seg) := by
  obtain ⟨A, B, hAB⟩ := h
  exact ⟨render A, render B, by rw [← hAB, render_append, render_append, String.append_assoc]⟩

/-- Rendered values of two distinct interpolations at the same position give
distinct outputs. -/
theorem render_val_ne {x y : String} (A B : List Piece) (hxy : x ≠ y) :
    render (A ++ Piece.val x :: B) ≠ render (A ++ Piece.val y :: B) := by
  intro h
  rw [render_append, render_append, render_cons, render_cons] at h
  have h2 := congrArg String.data h
  simp only [String.data_append] at h2
  exact hxy (String.ext (List.append_cancel_right (List.append_cancel_left h2)))

/-- The rendered allergy row is its opening literal, the value, and its
closing literal. -/
theorem render_allergy (a : String) :
    render (allergyPieces a) = allergyLit0 ++ (a ++ allergyLit2) := by
  show allergyLit0 ++ (a ++ (allergyLit2 ++ "")) = _
  rw [String.append_empty]

/-- The rendered message block is its opening literal, the value, and its
closing literal. -/
theorem render_message (m : String) :
    render (messagePieces m) = messageLit0 ++ (m ++ messageLit2) := by
  show messageLit0 ++ (m ++ (messageLit2 ++ "")) = _
  rw [String.append_empty]

/-- Inversion: a successful host-template render forces every required
RSVP and party key to be present and fixes the piece list. -/
theorem hostPieces_inv {r : RsvpData} {p : PartyData} {now : String} {L : List Piece}
    (h : hostPieces r p now = Except.ok L) :
    ∃ pcn cn pn em ph st,
      p.child_name = some pcn ∧ r.child_name = some cn ∧ r.parent_name = some pn ∧
      r.email = some em ∧ r.phone = some ph ∧ r.attendance_status = some st ∧
      L = [Piece.lit hostLit0, Piece.val pcn, Piece.lit hostLit2, Piece.val cn,
          Piece.lit hostLit4, Piece.val pn, Piece.lit hostLit6, Piece.val em,
          Piece.lit hostLit8, Piece.val ph, Piece.lit hostLit10, Piece.val st,
          Piece.lit hostLit12, Piece.val (statusLabel st), Piece.lit hostLit14,
          Piece.val (dictGetD r.number_of_kids "1"), Piece.lit hostLit16,
          Piece.val (dictGetD r.number_of_adults "1"), Piece.lit hostLit18]
        ++ (if truthy r.food_allergies then allergyPieces (dictGetD r.food_allergies "None")
            else [Piece.lit ""])
        ++ [Piece.lit hostLit20]
        ++ (if truthy r.birthday_message then messagePieces (dictGetD r.birthday_message "")
            else [Piece.lit ""])
        ++ [Piece.lit hostLit22, Piece.val now, Piece.lit hostLit24] := by
  cases hpcn : p.child_name with
  | none => simp [hostPieces, getItem, hpcn, error_bind] at h
  | some pcn =>
  cases hcn : r.child_name with
  | none => simp [hostPieces, getItem, hpcn, hcn, ok_bind, error_bind] at h
  | some cn =>
  cases hpn : r.parent_name with
  | none => simp [hostPieces, getItem, hpcn, hcn, hpn, ok_bind, error_bind] at h
  | some pn =>
  cases hem : r.email with
  | none => simp [hostPieces, getItem, hpcn, hcn, hpn, hem, ok_bind, error_bind] at h
  | some em =>
  cases hph : r.phone with
  | none => simp [hostPieces, getItem, hpcn, hcn, hpn, hem, hph, ok_bind, error_bind] at h
  | some ph =>
  cases hst : r.attendance_status with
  | none => simp [hostPieces, getItem, hpcn, hcn, hpn, hem, hph, hst, ok_bind, error_bind] at h
  | some st =>
  refine ⟨pcn, cn, pn, em, ph, st, rfl, rfl, rfl, rfl, rfl, rfl, ?_⟩
  simp only [hostPieces, getItem, hpcn, hcn, hpn, hem, hph, hst, ok_bind, pure_eq_ok,
    Except.ok.injEq] at h
  exact h.symm

/-- Inversion: a successful party-details render forces the five party
keys it reads to be present and fixes the piece list. -/
theorem detailBlockPieces_inv {p : PartyData} {det : List Piece}
    (h : detailBlockPieces p = Except.ok det) :
    ∃ pd ts te vn va,
      p.party_date = some pd ∧ p.party_time_start = some ts ∧ p.party_time_end = some te ∧
      p.venue_name = some vn ∧ p.venue_address = some va ∧
      det = [Piece.lit detailLit0, Piece.val pd, Piece.lit detailLit2, Piece.val ts,
        Piece.lit detailLit4, Piece.val te, Piece.lit detailLit6, Piece.val vn,
        Piece.lit detailLit8, Piece.val va, Piece.lit detailLit10] := by
  cases hpd : p.party_date with
  | none => simp [detailBlockPieces, getItem, hpd, error_bind] at h
  | some pd =>
  cases hts : p.party_time_start with
  | none => simp [detailBlockPieces, getItem, hpd, hts, ok_bind, error_bind] at h
  | some ts =>
  cases hte : p.party_time_end with
  | none => simp [detailBlockPieces, getItem, hpd, hts, hte, ok_bind, error_bind] at h
  | some te =>
  cases hvn : p.venue_name with
  | none => simp [detailBlockPieces, getItem, hpd, hts, hte, hvn, ok_bind, error_bind] at h
  | some vn =>
  cases hva : p.venue_address with
  | none => simp [detailBlockPieces, getItem, hpd, hts, hte, hvn, hva, ok_bind, error_bind] at h
  | some va =>
  refine ⟨pd, ts, te, vn, va, rfl, rfl, rfl, rfl, rfl, ?_⟩
  simp only [detailBlockPieces, getItem, hpd, hts, hte, hvn, hva, ok_bind, pure_eq_ok,
    Except.ok.injEq] at h
  exact h.symm

/-- Inversion: a successful guest-template render forces the required keys
to be present; the details segment is the rendered block exactly when
`attendance_status = "yes"` and the empty literal otherwise. -/
theorem guestPieces_inv {r : RsvpData} {p : PartyData} {L : List Piece}
    (h : guestPieces r p = Except.ok L) :
    ∃ pn st pcn age det,
      r.parent_name = some pn ∧ r.attendance_status = some st ∧
      p.child_name = some pcn ∧ p.age = some age ∧
      ((st = "yes" ∧ detailBlockPieces p = Except.ok det) ∨ (st ≠ "yes" ∧ det = [Piece.lit ""])) ∧
      L = [Piece.lit guestLit0, Piece.val pn, Piece.lit guestLit2,
          Piece.val (if st = "yes" then "thrilled" else "sorry"), Piece.lit guestLit4,
          Piece.val (if st = "yes" then "that you can join us" else "you cannot make it"),
          Piece.lit guestLit6, Piece.val pcn, Piece.lit guestLit8, Piece.val age,
          Piece.lit guestLit10] ++ det ++ [Piece.lit guestLit12] := by
  cases hpn : r.parent_name with
  | none => simp [guestPieces, getItem, hpn, error_bind] at h
  | some pn =>
  cases hst : r.attendance_status with
  | none => simp [guestPieces, getItem, hpn, hst, ok_bind, error_bind] at h
  | some st =>
  cases hpcn : p.child_name with
  | none => simp [guestPieces, getItem, hpn, hst, hpcn, ok_bind, error_bind] at h
  | some pcn =>
  cases hage : p.age with
  | none => simp [guestPieces, getItem, hpn, hst, hpcn, hage, ok_bind, error_bind] at h
  | some age =>
  by_cases hyes : st = "yes"
  · subst hyes
    cases hdet : detailBlockPieces p with
    | error e =>
      simp [guestPieces, getItem, hpn, hst, hpcn, hage, hdet, ok_bind, error_bind] at h
    | ok det =>
      refine ⟨pn, "yes", pcn, age, det, rfl, rfl, rfl, rfl, Or.inl ⟨rfl, rfl⟩, ?_⟩
      simp only [guestPieces, getItem, hpn, hst, hpcn, hage, hdet, ok_bind, pure_eq_ok,
        Except.ok.injEq, reduceIte] at h
      exact h.symm
  · refine ⟨pn, st, pcn, age, [Piece.lit ""], rfl, rfl, rfl, rfl, Or.inr ⟨hyes, rfl⟩, ?_⟩
    rw [if_neg hyes, if_neg hyes]
    simp only [guestPieces, getItem, hpn, hst, hpcn, hage, if_neg hyes, ok_bind, pure_eq_ok,
      Except.ok.injEq] at h
    exact h.symm

/-- The host template pieces computed on the example records. -/
theorem exampleHost_eq (now : String) :
    hostPieces exampleRsvp exampleParty now = Except.ok (exampleHostPieces now) := rfl

/-- The guest template pieces computed on the example records. -/
theorem exampleGuest_eq :
    guestPieces exampleRsvp exampleParty = Except.ok exampleGuestPieces := rfl

/-- The guest template pieces computed on the declining example record. -/
theorem declineGuest_eq :
    guestPieces declineRsvp exampleParty = Except.ok declineGuestPieces := rfl

/-- C1 counterexample: on the example records the public operations return
exactly the same value (`Except.ok ()`, i.e. Python `None`) whether every
SMTP step fails or succeeds, while the internal `_send_email` does return
`false` resp. `true`; so the public operations do not return a boolean
send-success indicator. -/
theorem c1_counterexample :
    send_rsvp_notification exampleNotifier failTransport exampleRsvp exampleParty exampleNow =
      send_rsvp_notification exampleNotifier okTransport exampleRsvp exampleParty exampleNow ∧
    send_confirmation_to_guest exampleNotifier failTransport exampleRsvp exampleParty =
      send_confirmation_to_guest exampleNotifier okTransport exampleRsvp exampleParty ∧
    send_rsvp_notification exampleNotifier failTransport exampleRsvp exampleParty exampleNow =
      Except.ok () ∧
    send_email exampleNotifier failTransport "jennifer@email.com" "s" "b" = false ∧
    send_email exampleNotifier okTransport "jennifer@email.com" "s" "b" = true :=
  ⟨rfl, rfl, rfl, rfl, rfl⟩

/-- C1 (amended): the public operations `send_rsvp_notification` and
`send_confirmation_to_guest` return `None` and discard the boolean from
`_send_email` — their result is independent of the transport outcome; only
the internal `_send_email` returns the send-success boolean, which is
`true` exactly when every SMTP step succeeds. -/
theorem c1_return_values (n : EmailNotifier) (ok1 ok2 : SmtpStep → Bool) (r : RsvpData)
    (p : PartyData) (now to_email subject html_body : String) :
    send_rsvp_notification n ok1 r p now = send_rsvp_notification n ok2 r p now ∧
    send_confirmation_to_guest n ok1 r p = send_confirmation_to_guest n ok2 r p ∧
    (send_email n ok1 to_email subject html_body = true ↔
      (ok1 .connect = true ∧ ok1 .starttls = true ∧ ok1 .login = true ∧
        ok1 .send_message = true)) := by
  refine ⟨rfl, rfl, ?_⟩
  cases h1 : ok1 .connect <;> cases h2 : ok1 .starttls <;> cases h3 : ok1 .login <;>
    cases h4 : ok1 .send_message <;> simp [send_email, runSmtpSession, h1, h2, h3, h4]

/-- C2: `_send_email` is total into `Bool` (no exception reaches the
caller); it returns `false` exactly when some step of the session —
connect, STARTTLS, login or transmission — fails, and no step is ever
attempted more than once (no retry). -/
theorem c2_send_email_catches_failures (n : EmailNotifier) (ok : SmtpStep → Bool)
    (to_email subject html_body : String) :
    (send_email n ok to_email subject html_body = false ↔
      (ok .connect = false ∨ ok .starttls = false ∨ ok .login = false ∨
        ok .send_message = false)) ∧
    (runSmtpSession ok).2.count SmtpStep.connect ≤ 1 ∧
    (runSmtpSession ok).2.count SmtpStep.starttls ≤ 1 ∧
    (runSmtpSession ok).2.count SmtpStep.login ≤ 1 ∧
    (runSmtpSession ok).2.count SmtpStep.send_message ≤ 1 := by
  cases h1 : ok .connect <;> cases h2 : ok .starttls <;> cases h3 : ok .login <;>
    cases h4 : ok .send_message <;>
      simp [send_email, runSmtpSession, h1, h2, h3, h4, List.count_cons, List.count_nil]

/-- C3 counterexample: an RSVP record whose required `parent_name` key is
absent makes both public operations raise an uncaught `KeyError` (modelled
as `Except.error`), so absent required fields are not tolerated. -/
theorem c3_counterexample :
    send_rsvp_notification exampleNotifier okTransport noParentRsvp exampleParty exampleNow =
      Except.error "KeyError: parent_name" ∧
    send_confirmation_to_guest exampleNotifier okTransport noParentRsvp exampleParty =
      Except.error "KeyError: parent_name" :=
  ⟨rfl, rfl⟩

/-- C3 (amended): when the required keys are present (`child_name`,
`parent_name`, `email`, `phone`, `attendance_status` on the RSVP record,
`child_name` and `age` on the party record, and the venue/date/time keys
only when attending), both operations succeed for every value of the
optional fields `number_of_kids`, `number_of_adults`, `food_allergies` and
`birthday_message`, including all of them absent. -/
theorem c3_optional_fields_tolerated (n : EmailNotifier) (ok : SmtpStep → Bool) (r : RsvpData)
    (p : PartyData) (now cn pn em ph st pcn age : String)
    (hcn : r.child_name = some cn) (hpn : r.parent_name = some pn)
    (hem : r.email = some em) (hph : r.phone = some ph)
    (hst : r.attendance_status = some st) (hpcn : p.child_name = some pcn)
    (hage : p.age = some age)
    (hdet : st = "yes" → p.party_date.isSome ∧ p.party_time_start.isSome ∧
      p.party_time_end.isSome ∧ p.venue_name.isSome ∧ p.venue_address.isSome) :
    send_rsvp_notification n ok r p now = Except.ok () ∧
    send_confirmation_to_guest n ok r p = Except.ok () := by
  constructor
  · simp only [send_rsvp_notification, rsvpSubject, hostHtmlBody, hostPieces, getItem,
      hcn, hpn, hem, hph, hst, hpcn, ok_bind, pure_eq_ok]
  · by_cases hyes : st = "yes"
    · subst hyes
      obtain ⟨h5, h6, h7, h8, h9⟩ := hdet rfl
      obtain ⟨pd, hpd⟩ := Option.isSome_iff_exists.mp h5
      obtain ⟨ts, hts⟩ := Option.isSome_iff_exists.mp h6
      obtain ⟨te, hte⟩ := Option.isSome_iff_exists.mp h7
      obtain ⟨vn, hvn⟩ := Option.isSome_iff_exists.mp h8
      obtain ⟨va, hva⟩ := Option.isSome_iff_exists.mp h9
      simp only [send_confirmation_to_guest, confirmationSubject, guestHtmlBody, guestPieces,
        detailBlockPieces, getItem, hpn, hem, hst, hpcn, hage, hpd, hts, hte, hvn, hva,
        ok_bind, pure_eq_ok, reduceIte]
    · simp only [send_confirmation_to_guest, confirmationSubject, guestHtmlBody, guestPieces,
        getItem, hpn, hem, hst, hpcn, hage, if_neg hyes, ok_bind, pure_eq_ok]

/-- Witness for C3 (amended): the minimal records, with every optional
field absent, are rendered and sent without error. -/
theorem c3_witness :
    send_rsvp_notification exampleNotifier okTransport minimalRsvp minimalParty exampleNow =
      Except.ok () ∧
    send_confirmation_to_guest exampleNotifier okTransport minimalRsvp minimalParty =
      Except.ok () :=
  c3_optional_fields_tolerated exampleNotifier okTransport minimalRsvp minimalParty exampleNow
    "Tim" "Ana" "ana@x.y" "1" "maybe" "Emma" "7" rfl rfl rfl rfl rfl rfl rfl
    (fun hyes => absurd hyes (by decide))

/-- C4: the host template renders the attendance status as exactly one of
three literal labels determined by `attendance_status`: `"yes"` maps to the
label containing "Coming!", `"no"` to the label containing "Cannot Attend",
and any other value to the label containing "Maybe". -/
theorem c4_status_label_mapping (st : String) :
    (statusLabel st = "✅ Coming!" ∨ statusLabel st = "❌ Cannot Attend" ∨
      statusLabel st = "❓ Maybe") ∧
    (statusLabel st = "✅ Coming!" ↔ st = "yes") ∧
    (statusLabel st = "❌ Cannot Attend" ↔ st = "no") ∧
    (statusLabel st = "❓ Maybe" ↔ (st ≠ "yes" ∧ st ≠ "no")) ∧
    StrContains (statusLabel "yes") "Coming!" ∧
    StrContains (statusLabel "no") "Cannot Attend" ∧
    ((st ≠ "yes" ∧ st ≠ "no") → StrContains (statusLabel st) "Maybe") := by
  refine ⟨?_, ?_, ?_, ?_, ⟨"✅ ", "", rfl⟩, ⟨"❌ ", "", rfl⟩, ?_⟩
  · by_cases h1 : st = "yes" <;> by_cases h2 : st = "no" <;> simp [statusLabel, h1, h2]
  · by_cases h1 : st = "yes" <;> by_cases h2 : st = "no" <;> simp [statusLabel, h1, h2]
  · by_cases h1 : st = "yes" <;> by_cases h2 : st = "no" <;> simp [statusLabel, h1, h2]
  · by_cases h1 : st = "yes" <;> by_cases h2 : st = "no" <;> simp [statusLabel, h1, h2]
  · rintro ⟨h1, h2⟩
    rw [statusLabel, if_neg h1, if_neg h2]
    exact ⟨"❓ ", "", rfl⟩

/-- C5: in the guest confirmation template the venue/date/time details
block is present (as a contiguous segment, with its "Party Details:"
heading in the rendered body) exactly when `attendance_status = "yes"`;
for any other status the block's opening chunk does not occur among the
template's pieces. -/
theorem c5_details_iff_yes (r : RsvpData) (p : PartyData) (L : List Piece)
    (h : guestPieces r p = Except.ok L) :
    (r.attendance_status = some "yes" →
      ∃ det, detailBlockPieces p = Except.ok det ∧ det <:+: L ∧
        StrContains (render L) "Party Details:") ∧
    (∀ st2, r.attendance_status = some st2 → st2 ≠ "yes" → Piece.lit detailLit0 ∉ L) := by
  obtain ⟨pn, st, pcn, age, det, hpn, hst, hpcn, hage, hcase, hL⟩ := guestPieces_inv h
  constructor
  · intro hyes
    rw [hst] at hyes
    injection hyes with hstyes
    subst hstyes
    rcases hcase with ⟨_, hdet⟩ | ⟨hne, _⟩
    · obtain ⟨pd, ts, te, vn, va, hpd, hts, hte, hvn, hva, hdetEq⟩ := detailBlockPieces_inv hdet
      refine ⟨det, hdet, ⟨_, _, hL.symm⟩, ?_⟩
      have hmem : Piece.lit detailLit0 ∈ L := by
        rw [hL, hdetEq]; simp
      exact strContains_trans (strContains_of_mem hmem)
        ⟨"\n                    <div class=\"party-details\">\n                        <h3 style=\"color: #FF6B9D; margin-bottom: 15px;\">",
         "</h3>\n                        <div class=\"detail-row\">\n                            <span class=\"emoji\">📅</span>\n                            <strong>Date:</strong> ",
         rfl⟩
    · exact absurd rfl hne
  · intro st2 hst2 hne2
    rw [hst] at hst2
    injection hst2 with hsteq
    subst hsteq
    rcases hcase with ⟨hyes, _⟩ | ⟨_, hdetEq⟩
    · exact absurd hyes hne2
    · rw [hL, hdetEq]
      simp [detailLit0, guestLit0, guestLit2, guestLit4, guestLit6, guestLit8, guestLit10,
        guestLit12]

/-- C6: the host notification contains the allergy row — its literal
markup around exactly the `food_allergies` value — whenever that field is
present and non-empty, and omits the row's opening chunk whenever the
field is absent or empty. -/
theorem c6_allergy_row_iff (r : RsvpData) (p : PartyData) (now : String) (L : List Piece)
    (h : hostPieces r p now = Except.ok L) :
    (∀ a, r.food_allergies = some a → a ≠ "" →
      allergyPieces a <:+: L ∧
      StrContains (render L) (allergyLit0 ++ (a ++ allergyLit2))) ∧
    (truthy r.food_allergies = false → Piece.lit allergyLit0 ∉ L) := by
  obtain ⟨pcn, cn, pn, em, ph, st, hpcn, hcn, hpn, hem, hph, hst, hL⟩ := hostPieces_inv h
  constructor
  · intro a ha hne
    have htr : truthy r.food_allergies = true := by rw [ha]; simp [truthy, hne]
    rw [htr] at hL
    rw [ha] at hL
    simp only [if_true, reduceIte, dictGetD, Option.getD_some] at hL
    have hinf : allergyPieces a <:+: L := by
      refine ⟨[Piece.lit hostLit0, Piece.val pcn, Piece.lit hostLit2, Piece.val cn,
        Piece.lit hostLit4, Piece.val pn, Piece.lit hostLit6, Piece.val em,
        Piece.lit hostLit8, Piece.val ph, Piece.lit hostLit10, Piece.val st,
        Piece.lit hostLit12, Piece.val (statusLabel st), Piece.lit hostLit14,
        Piece.val (dictGetD r.number_of_kids "1"), Piece.lit hostLit16,
        Piece.val (dictGetD r.number_of_adults "1"), Piece.lit hostLit18],
        [Piece.lit hostLit20]
          ++ (if truthy r.birthday_message then messagePieces (dictGetD r.birthday_message "")
              else [Piece.lit ""])
          ++ [Piece.lit hostLit22, Piece.val now, Piece.lit hostLit24], ?_⟩
      rw [hL]
      simp [List.append_assoc, dictGetD]
    exact ⟨hinf, render_allergy a ▸ strContains_of_seg hinf⟩
  · intro hfalse
    rw [hfalse] at hL
    rw [hL]
    by_cases hbm : truthy r.birthday_message
    · simp [hbm, messagePieces, allergyLit0, messageLit0, messageLit2, hostLit0, hostLit2,
        hostLit4, hostLit6, hostLit8, hostLit10, hostLit12, hostLit14, hostLit16, hostLit18,
        hostLit20, hostLit22, hostLit24]
    · simp [hbm, allergyLit0, hostLit0, hostLit2, hostLit4, hostLit6, hostLit8, hostLit10,
        hostLit12, hostLit14, hostLit16, hostLit18, hostLit20, hostLit22, hostLit24]

/-- C7: the host notification contains the birthday-message block — the
message text verbatim, wrapped in quotation marks — whenever
`birthday_message` is present and non-empty, and omits the block's opening
chunk whenever the field is absent or empty. -/
theorem c7_message_block_iff (r : RsvpData) (p : PartyData) (now : String) (L : List Piece)
    (h : hostPieces r p now = Except.ok L) :
    (∀ m, r.birthday_message = some m → m ≠ "" →
      messagePieces m <:+: L ∧
      StrContains (render L) (messageLit0 ++ (m ++ messageLit2)) ∧
      StrContains (render L) ("\"" ++ (m ++ "\""))) ∧
    (truthy r.birthday_message = false → Piece.lit messageLit0 ∉ L) := by
  obtain ⟨pcn, cn, pn, em, ph, st, hpcn, hcn, hpn, hem, hph, hst, hL⟩ := hostPieces_inv h
  constructor
  · intro m hm hne
    have htr : truthy r.birthday_message = true := by rw [hm]; simp [truthy, hne]
    rw [htr] at hL
    rw [hm] at hL
    simp only [if_true, reduceIte, dictGetD, Option.getD_some] at hL
    have hinf : messagePieces m <:+: L := by
      refine ⟨[Piece.lit hostLit0, Piece.val pcn, Piece.lit hostLit2, Piece.val cn,
        Piece.lit hostLit4, Piece.val pn, Piece.lit hostLit6, Piece.val em,
        Piece.lit hostLit8, Piece.val ph, Piece.lit hostLit10, Piece.val st,
        Piece.lit hostLit12, Piece.val (statusLabel st), Piece.lit hostLit14,
        Piece.val (dictGetD r.number_of_kids "1"), Piece.lit hostLit16,
        Piece.val (dictGetD r.number_of_adults "1"), Piece.lit hostLit18]
        ++ (if truthy r.food_allergies then allergyPieces (dictGetD r.food_allergies "None")
            else [Piece.lit ""])
        ++ [Piece.lit hostLit20],
        [Piece.lit hostLit22, Piece.val now, Piece.lit hostLit24], ?_⟩
      rw [hL]
      simp [List.append_assoc, dictGetD]
    have hrow : StrContains (render L) (messageLit0 ++ (m ++ messageLit2)) :=
      render_message m ▸ strContains_of_seg hinf
    refine ⟨hinf, hrow, strContains_trans hrow ?_⟩
    have e0 : messageLit0 =
        "\n                    <div class=\"message-box\">\n                        <strong>💌 Birthday Message:</strong><br>\n                        " ++ "\"" := rfl
    have e2 : messageLit2 = "\"" ++ "\n                    </div>\n                    " := rfl
    refine ⟨"\n                    <div class=\"message-box\">\n                        <strong>💌 Birthday Message:</strong><br>\n                        ",
      "\n                    </div>\n                    ", ?_⟩
    rw [e0, e2]
    simp only [String.append_assoc]
  · intro hfalse
    rw [hfalse] at hL
    rw [hL]
    by_cases hfa : truthy r.food_allergies
    · simp [hfa, allergyPieces, messageLit0, allergyLit0, allergyLit2, hostLit0, hostLit2,
        hostLit4, hostLit6, hostLit8, hostLit10, hostLit12, hostLit14, hostLit16, hostLit18,
        hostLit20, hostLit22, hostLit24]
    · simp [hfa, messageLit0, hostLit0, hostLit2, hostLit4, hostLit6, hostLit8, hostLit10,
        hostLit12, hostLit14, hostLit16, hostLit18, hostLit20, hostLit22, hostLit24]

/-- Witness for C5: the declining example record's guest template omits
the details block. -/
theorem c5_witness : Piece.lit detailLit0 ∉ declineGuestPieces :=
  (c5_details_iff_yes declineRsvp exampleParty declineGuestPieces declineGuest_eq).2
    "maybe" rfl (by decide)

/-- Witness for C6: the example record (allergies "None", a truthy
string) gets an allergy row containing exactly "None". -/
theorem c6_witness :
    allergyPieces "None" <:+: exampleHostPieces exampleNow ∧
    StrContains (render (exampleHostPieces exampleNow))
      (allergyLit0 ++ ("None" ++ allergyLit2)) :=
  (c6_allergy_row_iff exampleRsvp exampleParty exampleNow (exampleHostPieces exampleNow)
    (exampleHost_eq exampleNow)).1 "None" rfl (by decide)

/-- Witness for C7: the example record's host notification quotes its
birthday message verbatim. -/
theorem c7_witness :
    StrContains (render (exampleHostPieces exampleNow))
      ("\"" ++ ("Happy Birthday Emma! Can\x27t wait to celebrate with you!" ++ "\"")) :=
  ((c7_message_block_iff exampleRsvp exampleParty exampleNow (exampleHostPieces exampleNow)
    (exampleHost_eq exampleNow)).1
    "Happy Birthday Emma! Can\x27t wait to celebrate with you!" rfl (by decide)).2.2

/-- C8: on the example Emma/Sarah records the host HTML body contains
"Sarah", "Jennifer Smith", "jennifer@email.com", "(555) 123-4567",
"Coming!", "2" and the birthday message text; the guest HTML body is
addressed to "jennifer@email.com" and contains "Emma's 7th birthday",
"December 25, 2026" and "Happy Kids Party Place". -/
theorem c8_example_end_to_end (now : String) :
    ∃ hb gb,
      hostHtmlBody exampleRsvp exampleParty now = Except.ok hb ∧
      guestHtmlBody exampleRsvp exampleParty = Except.ok gb ∧
      StrContains hb "Sarah" ∧ StrContains hb "Jennifer Smith" ∧
      StrContains hb "jennifer@email.com" ∧ StrContains hb "(555) 123-4567" ∧
      StrContains hb "Coming!" ∧ StrContains hb "2" ∧
      StrContains hb "Happy Birthday Emma! Can\x27t wait to celebrate with you!" ∧
      getItem exampleRsvp.email "email" = Except.ok "jennifer@email.com" ∧
      StrContains gb "Emma\x27s 7th birthday" ∧ StrContains gb "December 25, 2026" ∧
      StrContains gb "Happy Kids Party Place" := by
  refine ⟨render (exampleHostPieces now), render exampleGuestPieces, rfl, rfl,
    strContains_of_mem (show Piece.val "Sarah" ∈ exampleHostPieces now by
      simp [exampleHostPieces]),
    strContains_of_mem (show Piece.val "Jennifer Smith" ∈ exampleHostPieces now by
      simp [exampleHostPieces]),
    strContains_of_mem (show Piece.val "jennifer@email.com" ∈ exampleHostPieces now by
      simp [exampleHostPieces]),
    strContains_of_mem (show Piece.val "(555) 123-4567" ∈ exampleHostPieces now by
      simp [exampleHostPieces]),
    strContains_trans (strContains_of_mem
      (show Piece.val "✅ Coming!" ∈ exampleHostPieces now by simp [exampleHostPieces]))
      ⟨"✅ ", "", rfl⟩,
    strContains_of_mem (show Piece.val "2" ∈ exampleHostPieces now by simp [exampleHostPieces]),
    strContains_of_mem
      (show Piece.val "Happy Birthday Emma! Can\x27t wait to celebrate with you!" ∈
          exampleHostPieces now by simp [exampleHostPieces]),
    rfl,
    strContains_trans (strContains_of_seg
      (⟨[Piece.lit guestLit0, Piece.val "Jennifer Smith", Piece.lit guestLit2,
          Piece.val "thrilled", Piece.lit guestLit4, Piece.val "that you can join us",
          Piece.lit guestLit6],
        [Piece.lit detailLit0, Piece.val "December 25, 2026", Piece.lit detailLit2,
          Piece.val "3:00 PM", Piece.lit detailLit4, Piece.val "6:00 PM", Piece.lit detailLit6,
          Piece.val "Happy Kids Party Place", Piece.lit detailLit8,
          Piece.val "123 Rainbow Street, Funtown, State 12345", Piece.lit detailLit10,
          Piece.lit guestLit12], rfl⟩ :
        [Piece.val "Emma", Piece.lit guestLit8, Piece.val "7", Piece.lit guestLit10] <:+:
          exampleGuestPieces))
      ⟨"", " party!</p>\n                    \n                    ", rfl⟩,
    strContains_of_mem (show Piece.val "December 25, 2026" ∈ exampleGuestPieces by
      simp [exampleGuestPieces]),
    strContains_of_mem (show Piece.val "Happy Kids Party Place" ∈ exampleGuestPieces by
      simp [exampleGuestPieces])⟩

/-- C9: no sequence of host-notification, guest-confirmation or raw send
calls changes the notifier instance: the configuration fields set at
construction are all unchanged. -/
theorem c9_config_never_mutated (n : EmailNotifier) (cs : List NotifierCall) :
    runCalls n cs = n ∧
    (runCalls n cs).smtp_server = n.smtp_server ∧ (runCalls n cs).smtp_port = n.smtp_port ∧
    (runCalls n cs).email = n.email ∧ (runCalls n cs).password = n.password := by
  have h : runCalls n cs = n := by
    induction cs with
    | nil => rfl
    | cons c cs ih => cases c <;> exact ih
  exact ⟨h, by rw [h], by rw [h], by rw [h], by rw [h]⟩

/-- C10: the guest confirmation's rendered subject and body are a
deterministic function of the records alone — running at two different
ambient clock times gives identical results — while the host notification
body embeds the current time and differs across clock times. -/
theorem c10_guest_render_clock_free (now1 now2 : String) (n : EmailNotifier)
    (ok : SmtpStep → Bool) (r : RsvpData) (p : PartyData) :
    guest_render_at now1 r p = guest_render_at now2 r p ∧
    send_confirmation_at now1 n ok r p = send_confirmation_at now2 n ok r p ∧
    ∃ b1 b2,
      hostHtmlBody exampleRsvp exampleParty "January 1, 2026 at 10:00 AM" = Except.ok b1 ∧
      hostHtmlBody exampleRsvp exampleParty "January 2, 2026 at 10:00 AM" = Except.ok b2 ∧
      b1 ≠ b2 := by
  refine ⟨rfl, rfl, _, _, rfl, rfl, ?_⟩
  have h := render_val_ne (x := "January 1, 2026 at 10:00 AM")
    (y := "January 2, 2026 at 10:00 AM")
    (exampleHostPieces "x").dropLast.dropLast [Piece.lit hostLit24] (by decide)
  intro hc
  exact h hc
